import Mathlib

/-!
Verification of the NMEA-to-GPX converter (`nmea2gpx.py`).

The Python source is shallowly embedded: strings are Lean `String`s
manipulated through explicit character-list helpers mirroring the Python
`str` operations used by the program; the Python `float` values decoded
from NMEA decimal fields are modelled exactly by unnormalized fractions
(`PyFloat`, an integer numerator over a positive natural denominator, with
`PyFloat.val : ℚ` as their rational value — every decimal literal and
every arithmetic step of the program is exactly representable, so the
rational model agrees with the IEEE semantics on all comparisons the
program makes); exceptions are modelled by `Except`; the generator-based
grouping state machine is a fold over the input sentence list with an
explicit state record.
-/

namespace Nmea2Gpx

/-- Python exceptions that the decoders can raise:
`IndexError` from out-of-range list indexing, `ValueError` from
`int()` / `float()` on a malformed literal. -/
inductive PyErr where
  | indexError : PyErr
  | valueError : PyErr
deriving DecidableEq

end Nmea2Gpx

deriving instance DecidableEq for Except

namespace Nmea2Gpx

/-! ### Exact model of the Python float values handled by the program -/

/-- An exact fraction: the value `num / den` with `den` positive by
construction (no normalization, so every operation is a plain integer
computation). -/
structure PyFloat where
  num : Int
  den : Nat
deriving DecidableEq

namespace PyFloat

/-- The rational value of the fraction. -/
def val (x : PyFloat) : ℚ := (x.num : ℚ) / (x.den : ℚ)

def ofInt (n : Int) : PyFloat := ⟨n, 1⟩

def neg (x : PyFloat) : PyFloat := ⟨-x.num, x.den⟩

def add (a b : PyFloat) : PyFloat :=
  ⟨a.num * b.den + b.num * a.den, a.den * b.den⟩

def sub (a b : PyFloat) : PyFloat :=
  ⟨a.num * b.den - b.num * a.den, a.den * b.den⟩

/-- Division by a positive natural constant. -/
def divNat (a : PyFloat) (n : Nat) : PyFloat := ⟨a.num, a.den * n⟩

/-- Python `abs`. -/
def pabs (a : PyFloat) : PyFloat := ⟨|a.num|, a.den⟩

/-- Python `==` on float values. -/
def beq (a b : PyFloat) : Bool := a.num * (b.den : Int) == b.num * (a.den : Int)

/-- Python `<=` on float values. -/
def ble (a b : PyFloat) : Bool := decide (a.num * (b.den : Int) ≤ b.num * (a.den : Int))

/-- Python `<` on float values. -/
def blt (a b : PyFloat) : Bool := decide (a.num * (b.den : Int) < b.num * (a.den : Int))

/-- Python `int()` on a float value: truncation toward zero. -/
def trunc (a : PyFloat) : Int := Int.tdiv a.num a.den

end PyFloat

/-! ### Python `str` helpers -/

/-- `s.split(sep)` for a one-character separator (Python keeps empty parts;
splitting the empty string yields `[""]`). -/
def splitOnChar (sep : Char) (cs : List Char) : List (List Char) :=
  cs.foldr
    (fun c acc =>
      if c = sep then [] :: acc
      else
        match acc with
        | h :: t => (c :: h) :: t
        | [] => [[c]])
    [[]]

/-- Python `str.strip()` restricted to ASCII whitespace, on char lists. -/
def stripChars (cs : List Char) : List Char :=
  ((cs.dropWhile Char.isWhitespace).reverse.dropWhile Char.isWhitespace).reverse

/-- Python `str.strip()`. -/
def pyStrip (s : String) : String := ⟨stripChars s.toList⟩

/-- Python `line.replace(chr(0), "")`: drop every NUL character. -/
def removeNulls (s : String) : String := ⟨s.toList.filter (fun c => c ≠ '\x00')⟩

/-- Python `str.upper()` (the program only uppercases ASCII hex digits). -/
def pyUpper (s : String) : String := ⟨s.toList.map Char.toUpper⟩

/-- Python `s.split(sep)` producing strings. -/
def pySplit (s : String) (sep : Char) : List String :=
  (splitOnChar sep s.toList).map (fun cs => ⟨cs⟩)

/-- Python slicing `s[a:b]` (never raises; clamps to the string length). -/
def pySlice (s : String) (a b : Nat) : String := ⟨(s.toList.drop a).take (b - a)⟩

/-- Python `line.startswith(marker)` for the one-character `$` marker. -/
def startsWithDollar (s : String) : Bool :=
  match s.toList with
  | c :: _ => c = '$'
  | [] => false

/-- Python list indexing `l[i]` for a non-negative literal index:
`IndexError` when out of range. -/
def ix (l : List String) (i : Nat) : Except PyErr String :=
  match l.get? i with
  | some s => .ok s
  | none => .error .indexError

/-! ### Python numeric literal parsing -/

/-- Value of a string of ASCII digits (0 for the empty string). -/
def digitsVal (s : String) : Nat :=
  s.toList.foldl (fun a c => 10 * a + (c.toNat - 48)) 0

/-- Is `s` a non-empty string of ASCII digits? -/
def isDigits (s : String) : Bool :=
  s.length ≠ 0 && s.toList.all Char.isDigit

/-- Python `int(s)` on the decimal literals appearing in NMEA fields
(optional sign, digits); `none` models a raised `ValueError`. -/
def parseInt (s : String) : Option Int :=
  match s.toList with
  | '-' :: rest =>
      if isDigits ⟨rest⟩ then some (-(digitsVal ⟨rest⟩ : Int)) else none
  | '+' :: rest =>
      if isDigits ⟨rest⟩ then some ((digitsVal ⟨rest⟩ : Int)) else none
  | _ => if isDigits s then some ((digitsVal s : Int)) else none

/-- Python `float(s)` on the plain decimal literals appearing in NMEA
fields (optional sign, integer part, optional fractional part), every one
of which is exactly representable as a fraction over a power of ten;
`none` models a raised `ValueError`. -/
def parseFloat (s : String) : Option PyFloat :=
  let core : String → Option PyFloat := fun body =>
    match pySplit body '.' with
    | [ip] => if isDigits ip then some ⟨(digitsVal ip : Int), 1⟩ else none
    | [ip, fp] =>
        if ip.length = 0 && fp.length = 0 then none
        else if (ip.length = 0 || isDigits ip) && (fp.length = 0 || isDigits fp) then
          some ⟨(digitsVal ip : Int) * ((10 : Nat) ^ fp.length : Nat) + (digitsVal fp : Int),
                (10 : Nat) ^ fp.length⟩
        else none
    | _ => none
  match s.toList with
  | '-' :: rest => (core ⟨rest⟩).map PyFloat.neg
  | '+' :: rest => core ⟨rest⟩
  | _ => core s

/-! ### Coordinate validation (`validate_latitude`, `validate_longitude`,
`detect_gps_errors`, `should_reject_coordinates`) -/

/-- `validate_latitude`: true iff the latitude lies in [-90, 90]. -/
def validate_latitude (lat : PyFloat) : Bool :=
  PyFloat.ble ⟨-90, 1⟩ lat && PyFloat.ble lat ⟨90, 1⟩

/-- `validate_longitude`: true iff the longitude lies in [-180, 180]. -/
def validate_longitude (lon : PyFloat) : Bool :=
  PyFloat.ble ⟨-180, 1⟩ lon && PyFloat.ble lon ⟨180, 1⟩

/-- `validate_coordinates`. -/
def validate_coordinates (lat lon : PyFloat) : Bool :=
  validate_latitude lat && validate_longitude lon

/-- `detect_gps_errors`: the list of warning messages for a coordinate
pair, in the order the Python function appends them. -/
def detect_gps_errors (lat lon : PyFloat) : List String :=
  (if PyFloat.beq lat ⟨0, 1⟩ && PyFloat.beq lon ⟨0, 1⟩ then
    ["Zero coordinates detected (likely GPS startup)",
     "Coordinates at null island (0,0) - likely invalid"]
   else if PyFloat.blt lat.pabs ⟨1, 10000⟩ && PyFloat.blt lon.pabs ⟨1, 10000⟩ then
    ["Coordinates very close to zero (suspicious)"]
   else []) ++
  (if PyFloat.beq lat.pabs ⟨90, 1⟩ then ["Latitude at pole - verify if correct"] else []) ++
  (if PyFloat.beq lon.pabs ⟨180, 1⟩ then ["Longitude at 180th meridian - verify if correct"]
   else [])

/-- The error messages that trigger rejection in strict mode. -/
def rejectable_errors : List String :=
  ["Zero coordinates detected (likely GPS startup)",
   "Coordinates very close to zero (suspicious)",
   "Coordinates at null island (0,0) - likely invalid"]

/-- `should_reject_coordinates`. -/
def should_reject_coordinates (lat lon : PyFloat) (strict : Bool) : Bool :=
  if !strict then false
  else rejectable_errors.any (fun e => (detect_gps_errors lat lon).contains e)

/-! ### Times, dates and timestamps -/

/-- A `datetime.time` as produced by the decoders (the parsed NMEA
time-of-day has no microseconds). -/
structure Time where
  hour : Nat
  minute : Nat
  second : Nat
deriving DecidableEq

/-- A `datetime.date`. -/
structure Date where
  year : Nat
  month : Nat
  day : Nat
deriving DecidableEq

/-- The `time` attribute of a position sentence: a bare `datetime.time`
as decoded, or a full `datetime.datetime` after `get_point` stamped a
date onto it. -/
inductive Timestamp where
  | tod : Time → Timestamp
  | dt : Date → Time → Timestamp
deriving DecidableEq

/-- `datetime.time(hour, minute, second)` construction out of the three
2-character slices of the raw field; a `ValueError` anywhere (non-digit
slice or out-of-range component) is absorbed to `none` by the decoders. -/
def parseTimeField (f : String) : Option Time :=
  match parseInt (pySlice f 0 2), parseInt (pySlice f 2 4), parseInt (pySlice f 4 6) with
  | some h, some m, some s =>
      if 0 ≤ h && h ≤ 23 && 0 ≤ m && m ≤ 59 && 0 ≤ s && s ≤ 59 then
        some ⟨h.toNat, m.toNat, s.toNat⟩
      else none
  | _, _, _ => none

def isLeapYear (y : Nat) : Bool := (y % 4 = 0 && y % 100 ≠ 0) || y % 400 = 0

def daysInMonth (y m : Nat) : Nat :=
  if m = 2 then (if isLeapYear y then 29 else 28)
  else if m = 4 || m = 6 || m = 9 || m = 11 then 30
  else 31

/-- `ddmmyy` date field: `datetime.date(2000 + yy, mm, dd)` with the
`ValueError` of an invalid component absorbed to `none` by the decoder. -/
def parseDateField (f : String) : Option Date :=
  match parseInt (pySlice f 0 2), parseInt (pySlice f 2 4), parseInt (pySlice f 4 6) with
  | some d, some mo, some y =>
      let year : Int := 2000 + y
      if 1 ≤ mo && mo ≤ 12 && 1 ≤ d && 1 ≤ year &&
          d ≤ (daysInMonth year.toNat mo.toNat : Int) then
        some ⟨year.toNat, mo.toNat, d.toNat⟩
      else none
  | _, _, _ => none

/-! ### Field-access helpers shared by the decoders

Each helper mirrors one Python field-extraction idiom. -/

/-- `float(l[i]) if len(l) > i and l[i] else None` (length-guarded: never
an `IndexError`; a malformed non-empty literal raises `ValueError`). -/
def optFloatLen (l : List String) (i : Nat) : Except PyErr (Option PyFloat) :=
  match l.get? i with
  | some s =>
      if s = "" then .ok none
      else
        match parseFloat s with
        | some q => .ok (some q)
        | none => .error .valueError
  | none => .ok none

/-- `int(l[i]) if len(l) > i and l[i] else None`. -/
def optIntLen (l : List String) (i : Nat) : Except PyErr (Option Int) :=
  match l.get? i with
  | some s =>
      if s = "" then .ok none
      else
        match parseInt s with
        | some n => .ok (some n)
        | none => .error .valueError
  | none => .ok none

/-- `float(l[i]) if l[i] else None` (the index itself is unguarded). -/
def optFloatIx (l : List String) (i : Nat) : Except PyErr (Option PyFloat) :=
  match ix l i with
  | .error e => .error e
  | .ok s =>
      if s = "" then .ok none
      else
        match parseFloat s with
        | some q => .ok (some q)
        | none => .error .valueError

/-- `int(l[i]) if l[i] else None` (the index itself is unguarded). -/
def optIntIx (l : List String) (i : Nat) : Except PyErr (Option Int) :=
  match ix l i with
  | .error e => .error e
  | .ok s =>
      if s = "" then .ok none
      else
        match parseInt s with
        | some n => .ok (some n)
        | none => .error .valueError

/-- Plain `int(l[i])` (unguarded index, empty or malformed raises). -/
def intIx (l : List String) (i : Nat) : Except PyErr Int :=
  match ix l i with
  | .error e => .error e
  | .ok s =>
      match parseInt s with
      | some n => .ok n
      | none => .error .valueError

/-- The shared time-field idiom of `RMC.__init__` / `GGA.__init__`:
`if sentence[0]:` (unguarded index) followed by a fully absorbed
try-parse of the 6-digit time. -/
def timeFieldAt (l : List String) : Except PyErr (Option Timestamp) :=
  match ix l 0 with
  | .error e => .error e
  | .ok f => .ok (if f = "" then none else (parseTimeField f).map Timestamp.tod)

/-- The `DDDMM.MMMM` conversion applied to an already-parsed raw value:
`deg = int(raw / 100); minutes = raw - deg * 100; value = deg + minutes / 60`,
negated when the hemisphere letter matches the negative one. -/
def parseCoordVal (raw : PyFloat) (neg : Bool) : PyFloat :=
  let deg : Int := (raw.divNat 100).trunc
  let minutes : PyFloat := raw.sub ⟨deg * 100, 1⟩
  let v : PyFloat := (PyFloat.ofInt deg).add (minutes.divNat 60)
  if neg then v.neg else v

/-! ### The five typed sentence records -/

/-- `RMC` (PositionTime). -/
structure RMCRec where
  time : Option Timestamp
  date : Option Date
  status : Bool
  latitude : Option PyFloat
  longitude : Option PyFloat
  speed : Option PyFloat
  course : Option PyFloat
  magVar : Option PyFloat
deriving DecidableEq

/-- `GGA` (PositionFix). -/
structure GGARec where
  time : Option Timestamp
  latitude : Option PyFloat
  longitude : Option PyFloat
  fixQuality : Option Int
  numSats : Option Int
  hdop : Option PyFloat
  altitude : Option PyFloat
  geoidHeight : Option PyFloat
  dgpsUpdate : Option PyFloat
  dgpsStation : Option Int
deriving DecidableEq

/-- `GSA` (SatelliteGeometry). -/
structure GSARec where
  modeAuto : String
  modeFixType : Option Int
  svIds : List Int
  pdop : Option PyFloat
  hdop : Option PyFloat
  vdop : Option PyFloat
deriving DecidableEq

/-- `VTG` (TrackSpeed). -/
structure VTGRec where
  trueTrack : Option PyFloat
  magTrack : Option PyFloat
  speedKnots : Option PyFloat
  speedKmh : Option PyFloat
deriving DecidableEq

/-- `GSVSatellite`. -/
structure GSVSat where
  prn : Option Int
  elevation : Option Int
  azimuth : Option Int
  snr : Option Int
deriving DecidableEq

/-- `GSV` (SatelliteVisibility). -/
structure GSVRec where
  numMessages : Int
  msgNum : Int
  satsInView : Int
  satData : List GSVSat
deriving DecidableEq

/-! ### RMC decoder -/

/-- The latitude block of `RMC.__init__`:
`if len(sentence) > 3 and sentence[2] and sentence[3]` guards both
accesses; `float` on the raw field propagates (`ValueError` fails the
sentence); an out-of-range converted value is discarded to `none`. -/
def rmcLat0 (s : List String) : Except PyErr (Option PyFloat) :=
  match s.get? 2, s.get? 3 with
  | some f2, some f3 =>
      if f2 = "" || f3 = "" then .ok none
      else
        match parseFloat f2 with
        | none => .error .valueError
        | some raw =>
            let v := parseCoordVal raw (f3 == "S")
            .ok (if validate_latitude v then some v else none)
  | _, _ => .ok none

/-- The shared tail of the longitude blocks of `RMC.__init__` and
`GGA.__init__`: range-check the converted longitude (discarding it alone
when out of range), then apply the strict-mode rejection that clears both
coordinates; returns the final (latitude, longitude) pair. -/
def coordResolve (lat0 : Option PyFloat) (v : PyFloat) (strict : Bool) :
    Option PyFloat × Option PyFloat :=
  if !validate_longitude v then (lat0, none)
  else
    match lat0 with
    | some la =>
        if should_reject_coordinates la v strict then (none, none)
        else (some la, some v)
    | none => (none, some v)

/-- The longitude block of `RMC.__init__` (guard `len(sentence) > 5 and
sentence[4] and sentence[5]`); `float` on a malformed raw field raises. -/
def rmcLonPair (s : List String) (lat0 : Option PyFloat) (strict : Bool) :
    Except PyErr (Option PyFloat × Option PyFloat) :=
  match s.get? 4, s.get? 5 with
  | some f4, some f5 =>
      if f4 = "" || f5 = "" then .ok (lat0, none)
      else
        match parseFloat f4 with
        | none => .error .valueError
        | some raw => .ok (coordResolve lat0 (parseCoordVal raw (f5 == "W")) strict)
  | _, _ => .ok (lat0, none)

/-- The magnetic-variation block of `RMC.__init__`
(`if len(sentence) > 9 and sentence[9]`, negated when field 10 is `W`). -/
def rmcMagVar (s : List String) : Except PyErr (Option PyFloat) :=
  match s.get? 9 with
  | some f9 =>
      if f9 = "" then .ok none
      else
        match parseFloat f9 with
        | none => .error .valueError
        | some mv =>
            .ok (some (if (match s.get? 10 with
                           | some f10 => f10 == "W"
                           | none => false) then mv.neg else mv))
  | none => .ok none

/-- `RMC.__init__`: the full decoder over the already-split field list. -/
def decodeRMC (s : List String) (strict : Bool) : Except PyErr RMCRec :=
  match timeFieldAt s with
  | .error e => .error e
  | .ok time =>
      let date := match s.get? 8 with
        | some f => if f = "" then none else parseDateField f
        | none => none
      let status : Bool := match s.get? 1 with
        | some f => f == "A"
        | none => false
      match rmcLat0 s with
      | .error e => .error e
      | .ok lat0 =>
          match rmcLonPair s lat0 strict with
          | .error e => .error e
          | .ok (la, lo) =>
              match optFloatLen s 6 with
              | .error e => .error e
              | .ok speed =>
                  match optFloatLen s 7 with
                  | .error e => .error e
                  | .ok course =>
                      match rmcMagVar s with
                      | .error e => .error e
                      | .ok magVar =>
                          .ok ⟨time, date, status, la, lo, speed, course, magVar⟩

/-! ### GGA decoder -/

/-- The latitude block of `GGA.__init__`: `if sentence[1] and sentence[2]`
with Python short-circuiting — index 1 is always accessed, index 2 only
when field 1 is non-empty. -/
def ggaLat0 (s : List String) : Except PyErr (Option PyFloat) :=
  match ix s 1 with
  | .error e => .error e
  | .ok f1 =>
      if f1 = "" then .ok none
      else
        match ix s 2 with
        | .error e => .error e
        | .ok f2 =>
            if f2 = "" then .ok none
            else
              match parseFloat f1 with
              | none => .error .valueError
              | some raw =>
                  let v := parseCoordVal raw (f2 == "S")
                  .ok (if validate_latitude v then some v else none)

/-- The longitude block of `GGA.__init__` (`if sentence[3] and
sentence[4]`), including the strict-mode rejection clearing both
coordinates. -/
def ggaLonPair (s : List String) (lat0 : Option PyFloat) (strict : Bool) :
    Except PyErr (Option PyFloat × Option PyFloat) :=
  match ix s 3 with
  | .error e => .error e
  | .ok f3 =>
      if f3 = "" then .ok (lat0, none)
      else
        match ix s 4 with
        | .error e => .error e
        | .ok f4 =>
            if f4 = "" then .ok (lat0, none)
            else
              match parseFloat f3 with
              | none => .error .valueError
              | some raw => .ok (coordResolve lat0 (parseCoordVal raw (f4 == "W")) strict)

/-- `GGA.__init__`: the full decoder over the already-split field list. -/
def decodeGGA (s : List String) (strict : Bool) : Except PyErr GGARec :=
  match timeFieldAt s with
  | .error e => .error e
  | .ok time =>
      match ggaLat0 s with
      | .error e => .error e
      | .ok lat0 =>
          match ggaLonPair s lat0 strict with
          | .error e => .error e
          | .ok (la, lo) =>
              match optIntIx s 5 with
              | .error e => .error e
              | .ok fixQuality =>
                  match optIntIx s 6 with
                  | .error e => .error e
                  | .ok numSats =>
                      match optFloatIx s 7 with
                      | .error e => .error e
                      | .ok hdop =>
                          match optFloatIx s 8 with
                          | .error e => .error e
                          | .ok altitude =>
                              match optFloatLen s 10 with
                              | .error e => .error e
                              | .ok geoidHeight =>
                                  match optFloatLen s 12 with
                                  | .error e => .error e
                                  | .ok dgpsUpdate =>
                                      match optIntLen s 13 with
                                      | .error e => .error e
                                      | .ok dgpsStation =>
                                          .ok ⟨time, la, lo, fixQuality, numSats,
                                               hdop, altitude, geoidHeight,
                                               dgpsUpdate, dgpsStation⟩

/-! ### GSA, VTG, GSV decoders -/

/-- The satellite-id loop of `GSA.__init__`: indices 2..13,
length-guarded, skipping empty slots; `int` on a malformed non-empty
slot raises. -/
def gsaIdsGo (s : List String) : List Nat → List Int → Except PyErr (List Int)
  | [], acc => .ok acc
  | i :: rest, acc =>
      match s.get? i with
      | some f =>
          if f = "" then gsaIdsGo s rest acc
          else
            match parseInt f with
            | some n => gsaIdsGo s rest (acc ++ [n])
            | none => .error .valueError
      | none => gsaIdsGo s rest acc

def gsaIds (s : List String) : Except PyErr (List Int) :=
  gsaIdsGo s (List.range' 2 12) []

/-- `GSA.__init__`. -/
def decodeGSA (s : List String) : Except PyErr GSARec :=
  match ix s 0 with
  | .error e => .error e
  | .ok modeAuto =>
      match optIntIx s 1 with
      | .error e => .error e
      | .ok modeFixType =>
          match gsaIds s with
          | .error e => .error e
          | .ok svIds =>
              match optFloatLen s 14 with
              | .error e => .error e
              | .ok pdop =>
                  match optFloatLen s 15 with
                  | .error e => .error e
                  | .ok hdop =>
                      match optFloatLen s 16 with
                      | .error e => .error e
                      | .ok vdop => .ok ⟨modeAuto, modeFixType, svIds, pdop, hdop, vdop⟩

/-- `VTG.__init__` (indices 0, 2, 4, 6, all with unguarded access). -/
def decodeVTG (s : List String) : Except PyErr VTGRec :=
  match optFloatIx s 0 with
  | .error e => .error e
  | .ok trueTrack =>
      match optFloatIx s 2 with
      | .error e => .error e
      | .ok magTrack =>
          match optFloatIx s 4 with
          | .error e => .error e
          | .ok speedKnots =>
              match optFloatIx s 6 with
              | .error e => .error e
              | .ok speedKmh => .ok ⟨trueTrack, magTrack, speedKnots, speedKmh⟩

/-- One satellite block of `GSV.__init__` at base index `b`
(`if base_idx + 3 < len(sentence) and sentence[base_idx]`). -/
def gsvSatAt (s : List String) (b : Nat) : Except PyErr (Option GSVSat) :=
  match s.get? (b + 3), s.get? b with
  | some _, some f =>
      if f = "" then .ok none
      else
        match parseInt f with
        | none => .error .valueError
        | some prn =>
            match optIntIx s (b + 1) with
            | .error e => .error e
            | .ok el =>
                match optIntIx s (b + 2) with
                | .error e => .error e
                | .ok az =>
                    match optIntIx s (b + 3) with
                    | .error e => .error e
                    | .ok snr => .ok (some ⟨some prn, el, az, snr⟩)
  | _, _ => .ok none

/-- `GSV.__init__` (three unguarded leading `int` fields, then up to four
length-guarded satellite blocks collected left to right). -/
def decodeGSV (s : List String) : Except PyErr GSVRec :=
  match intIx s 0 with
  | .error e => .error e
  | .ok numMessages =>
      match intIx s 1 with
      | .error e => .error e
      | .ok msgNum =>
          match intIx s 2 with
          | .error e => .error e
          | .ok satsInView =>
              match gsvSatAt s 3 with
              | .error e => .error e
              | .ok o0 =>
                  match gsvSatAt s 7 with
                  | .error e => .error e
                  | .ok o1 =>
                      match gsvSatAt s 11 with
                      | .error e => .error e
                      | .ok o2 =>
                          match gsvSatAt s 15 with
                          | .error e => .error e
                          | .ok o3 =>
                              .ok ⟨numMessages, msgNum, satsInView,
                                   [o0, o1, o2, o3].filterMap id⟩

/-! ### `NMEASentence.parse`: checksum validation and dispatch -/

/-- The errors `NMEASentence.parse` can raise: `ChecksumError` from the
checksum comparison, and `ValueError` wrapping every other failure
(missing separator, short sentence id, decoder exceptions). -/
inductive ParseErr where
  | checksumError : ParseErr
  | valueError : ParseErr
deriving DecidableEq

/-- A decoded sentence: one of the five typed records, or the generic
record for an unrecognized type code (talker, type code, raw field
list). -/
inductive Sentence where
  | rmc : RMCRec → Sentence
  | gga : GGARec → Sentence
  | gsa : GSARec → Sentence
  | vtg : VTGRec → Sentence
  | gsv : GSVRec → Sentence
  | unknown : String → String → List String → Sentence
deriving DecidableEq

/-- The XOR fold of the checksum computation:
`calc_cksum ^= ord(c)` over the payload characters. -/
def xorFold (cs : List Char) : Nat :=
  cs.foldl (fun a c => a ^^^ c.toNat) 0

/-- The hexadecimal digit characters used by `%X` formatting (uppercase). -/
def hexDigitChar (n : Nat) : Char :=
  if n < 10 then Char.ofNat (48 + n) else Char.ofNat (55 + n)

/-- Drop leading zero digits but keep at least two digits. -/
def trimHex : List Char → List Char
  | '0' :: rest => if 2 ≤ rest.length then trimHex rest else '0' :: rest
  | l => l

/-- Python `f-string` formatting with `02X`: uppercase hexadecimal, zero
padded to at least two digits (six nibbles cover every possible XOR of
character code points). -/
def hexRender (n : Nat) : String :=
  ⟨trimHex ([n / 16 ^ 5 % 16, n / 16 ^ 4 % 16, n / 16 ^ 3 % 16,
             n / 16 ^ 2 % 16, n / 16 % 16, n % 16].map hexDigitChar)⟩

/-- Dispatch on the 3-character type code, forwarding the strictness flag
only to the RMC and GGA decoders; unknown type codes produce the generic
record. Decoder exceptions are wrapped into `ValueError` by `parse`. -/
def dispatchSentence (talker stype : String) (sdata : List String)
    (strict : Bool) : Except ParseErr Sentence :=
  if stype = "RMC" then
    match decodeRMC sdata strict with
    | .ok r => .ok (.rmc r)
    | .error _ => .error .valueError
  else if stype = "GGA" then
    match decodeGGA sdata strict with
    | .ok g => .ok (.gga g)
    | .error _ => .error .valueError
  else if stype = "GSA" then
    match decodeGSA sdata with
    | .ok g => .ok (.gsa g)
    | .error _ => .error .valueError
  else if stype = "GSV" then
    match decodeGSV sdata with
    | .ok g => .ok (.gsv g)
    | .error _ => .error .valueError
  else if stype = "VTG" then
    match decodeVTG sdata with
    | .ok v => .ok (.vtg v)
    | .error _ => .error .valueError
  else .ok (.unknown talker stype sdata)

/-- `NMEASentence.parse`: reject lines not starting with `$`, remove NUL
bytes, strip whitespace, split payload from checksum at `*` (exactly one
separator required), validate the XOR checksum case-insensitively, split
the payload on commas, require a sentence id of at least 5 characters and
dispatch on its type code. -/
def NMEAparse (line : String) (strict : Bool) : Except ParseErr Sentence :=
  if ¬ startsWithDollar line then .error .valueError
  else
    let l1 := removeNulls line
    let l2 := pyStrip l1
    match pySplit l2 '*' with
    | [snt, ck] =>
        let cval := xorFold snt.toList.tail
        if hexRender cval ≠ pyUpper (pyStrip ck) then .error .checksumError
        else
          let parts := pySplit ⟨snt.toList.tail⟩ ','
          let sid := parts.headD ""
          if sid.length < 5 then .error .valueError
          else
            dispatchSentence (pySlice sid 0 2) ⟨sid.toList.drop 2⟩
              (parts.drop 1) strict
    | _ => .error .valueError

/-- `parse_nmea_stream` on an already-line-split input: skip lines not
starting with `$`, strip and remove NUL bytes, skip lines that became
empty, and drop every line whose parse raises (checksum mismatch or any
decode error) while continuing with the rest of the stream. -/
def parseStreamLine (strict : Bool) (raw : String) : Option Sentence :=
  if ¬ startsWithDollar raw then none
  else
    let lineStr := removeNulls (pyStrip raw)
    if pyStrip lineStr = "" then none
    else
      match NMEAparse lineStr strict with
      | .ok s => some s
      | .error _ => none

def parseNmeaStream (lines : List String) (strict : Bool) : List Sentence :=
  lines.filterMap (parseStreamLine strict)

/-! ### The point-grouping state machine (`group_nmea_points`) -/

/-- The mutable accumulator `current_data` of `group_nmea_points`. -/
structure GroupState where
  rmc : Option RMCRec
  gga : Option GGARec
  gsa : Option GSARec
  vtg : Option VTGRec
  gsv : Option GSVRec
  lastTime : Option Timestamp
  currentDate : Option Date
deriving DecidableEq

def initState : GroupState := ⟨none, none, none, none, none, none, none⟩

/-- An emitted point: the dictionary yielded by `group_nmea_points`. -/
structure Point where
  rmc : Option RMCRec
  gga : Option GGARec
  gsa : Option GSARec
  vtg : Option VTGRec
  gsv : Option GSVRec
deriving DecidableEq

/-- Seconds since midnight of a stored time value
(`hour * 3600 + minute * 60 + second + microsecond / 1e6`; the decoders
never produce microseconds). -/
def Timestamp.secs : Timestamp → Nat
  | .tod t => t.hour * 3600 + t.minute * 60 + t.second
  | .dt _ t => t.hour * 3600 + t.minute * 60 + t.second

/-- The time-of-day a sentence contributes to grouping: `sentence.time`
for RMC and GGA, nothing for the other types. -/
def sentenceTime : Sentence → Option Timestamp
  | .rmc r => r.time
  | .gga g => g.time
  | _ => none

/-- Is the sentence an instance of `(RMC, GGA)`? -/
def isPosSentence : Sentence → Bool
  | .rmc _ => true
  | .gga _ => true
  | _ => false

/-- `get_point`: build the yielded dictionary from the accumulator,
stamping dates onto bare times-of-day. With both RMC and GGA pending and
the RMC carrying date and time, both times become full timestamps with
the RMC's date; with only GGA pending and an inherited date available,
the GGA's time is stamped with it. (The stored times are always bare
times-of-day: every yield clears the position slots, so the stamped
copies never re-enter the accumulator.) -/
def getPoint (st : GroupState) : Point :=
  match st.rmc, st.gga with
  | some r, some g =>
      let rg :=
        match r.time, r.date with
        | some (Timestamp.tod t), some d =>
            ({ r with time := some (Timestamp.dt d t) },
             match g.time with
             | some (Timestamp.tod tg) => { g with time := some (Timestamp.dt d tg) }
             | _ => g)
        | _, _ => (r, g)
      ⟨some rg.1, some rg.2, st.gsa, st.vtg, st.gsv⟩
  | none, some g =>
      (match st.currentDate with
       | some d =>
           let g2 :=
             match g.time with
             | some (Timestamp.tod tg) => { g with time := some (Timestamp.dt d tg) }
             | _ => g
           ⟨none, some g2, st.gsa, st.vtg, st.gsv⟩
       | none => ⟨none, some g, st.gsa, st.vtg, st.gsv⟩)
  | r?, g? => ⟨r?, g?, st.gsa, st.vtg, st.gsv⟩

/-- Clearing done on every flush: `rmc`, `gga`, `vtg` and `last_time` are
reset; `gsa`, `gsv` and `current_date` survive. -/
def clearPos (st : GroupState) : GroupState :=
  { st with rmc := none, gga := none, vtg := none, lastTime := none }

/-- The time-window flush (step 1 of the transition): when an incoming
RMC or GGA carries a time-of-day, a last-seen time is recorded and their
absolute difference in seconds since midnight strictly exceeds the
window, yield the current point if a position sentence is pending, then
clear. -/
def windowFlush (tw : PyFloat) (st : GroupState) (s : Sentence) :
    GroupState × List Point :=
  if isPosSentence s then
    match sentenceTime s, st.lastTime with
    | some mt, some lt =>
        if PyFloat.blt tw ⟨|(mt.secs : Int) - (lt.secs : Int)|, 1⟩ then
          (clearPos st, if st.rmc.isSome || st.gga.isSome then [getPoint st] else [])
        else (st, [])
    | _, _ => (st, [])
  else (st, [])

/-- Steps 2–4 of the transition: the duplicate-position flush (an
incoming RMC with both position slots already filled, or symmetrically an
incoming GGA) followed by storing the sentence into its slot, updating
`last_time` from the sentence's time and, for an RMC carrying both a time
and a date, updating `current_date`. -/
def storeSentence (st : GroupState) (s : Sentence) : GroupState × List Point :=
  match s with
  | .rmc r =>
      let flushed :=
        if st.rmc.isSome && st.gga.isSome then (clearPos st, [getPoint st])
        else (st, [])
      let st2 := { flushed.1 with rmc := some r, lastTime := r.time }
      (if r.time.isSome && r.date.isSome then { st2 with currentDate := r.date } else st2,
       flushed.2)
  | .gga g =>
      let flushed :=
        if st.gga.isSome && st.rmc.isSome then (clearPos st, [getPoint st])
        else (st, [])
      ({ flushed.1 with gga := some g, lastTime := g.time }, flushed.2)
  | .gsa x => ({ st with gsa := some x }, [])
  | .vtg x => ({ st with vtg := some x }, [])
  | .gsv x => ({ st with gsv := some x }, [])
  | .unknown _ _ _ => (st, [])

/-- One full iteration of the `for sentence in sentences` loop. -/
def stepSentence (tw : PyFloat) (st : GroupState) (s : Sentence) :
    GroupState × List Point :=
  let p1 := windowFlush tw st s
  let p2 := storeSentence p1.1 s
  (p2.1, p1.2 ++ p2.2)

/-- `group_nmea_points` over a finite sentence list (default window 1.0
second), including the final end-of-stream flush. -/
def groupNmeaPoints (tw : PyFloat) (sentences : List Sentence) : List Point :=
  let fin := sentences.foldl
    (fun (acc : GroupState × List Point) s =>
      let r := stepSentence tw acc.1 s
      (r.1, acc.2 ++ r.2))
    (initState, [])
  fin.2 ++ (if fin.1.rmc.isSome || fin.1.gga.isSome then [getPoint fin.1] else [])

/-! ### The track serializer head (`GPXWriter.add_trackpoint`) -/

def pad2 (n : Nat) : String := if n < 10 then "0" ++ toString n else toString n

/-- The date part of `strftime("%Y-%m-%dT%H:%M:%S.%fZ")` (years here are
always four digits). -/
def fmtDate (d : Date) : String :=
  toString d.year ++ "-" ++ pad2 d.month ++ "-" ++ pad2 d.day

/-- The time part of `strftime("%Y-%m-%dT%H:%M:%S.%fZ")`; the microsecond
field of stored times is always zero. -/
def fmtTimePart (t : Time) : String :=
  pad2 t.hour ++ ":" ++ pad2 t.minute ++ ":" ++ pad2 t.second ++ ".000000Z"

/-- `pos.time.strftime("%Y-%m-%dT%H:%M:%S.%fZ")`. Modelled from the
Python standard library: on a bare `datetime.time`, `strftime`
substitutes the placeholder date 1900-01-01 for the date directives; on a
`datetime.datetime` it uses the stamped date. -/
def formatTimestamp (ts : Timestamp) : String :=
  match ts with
  | .tod t => fmtDate ⟨1900, 1, 1⟩ ++ "T" ++ fmtTimePart t
  | .dt d t => fmtDate d ++ "T" ++ fmtTimePart t

/-- The head fields of one emitted `<trkpt>` element (the `<extensions>`
sub-block, which no claim refers to, is not modelled). -/
structure Trkpt where
  lat : PyFloat
  lon : PyFloat
  ele : Option PyFloat
  time : Option String
  sat : Option Int
deriving DecidableEq

/-- `GPXWriter.add_trackpoint`: nothing is written without a position
sentence; the RMC is preferred over the GGA for coordinates and time; a
missing coordinate skips the point entirely; elevation comes from the
GGA's altitude when present, the `<time>` element is written whenever the
preferred sentence has a time, and `<sat>` from a non-zero GGA satellite
count (Python truthiness: a count of 0 is omitted). -/
def addTrackpoint (rmc : Option RMCRec) (gga : Option GGARec) : Option Trkpt :=
  match rmc, gga with
  | none, none => none
  | _, _ =>
      let pos : Option PyFloat × Option PyFloat × Option Timestamp :=
        match rmc with
        | some r => (r.latitude, r.longitude, r.time)
        | none =>
            match gga with
            | some g => (g.latitude, g.longitude, g.time)
            | none => (none, none, none)
      match pos.1, pos.2.1 with
      | some la, some lo =>
          some
            { lat := la
              lon := lo
              ele := match gga with
                     | some g => g.altitude
                     | none => none
              time := pos.2.2.map formatTimestamp
              sat := match gga with
                     | some g =>
                         match g.numSats with
                         | some n => if n ≠ 0 then some n else none
                         | none => none
                     | none => none }
      | _, _ => none

/-- The per-file serialization loop of `process_files`: one `<trkpt>` per
grouped point that passes `add_trackpoint`'s coordinate check. -/
def writeTrackpoints (points : List Point) : List Trkpt :=
  points.filterMap (fun p => addTrackpoint p.rmc p.gga)

/-- The eight-line "searching" capture from the repository's test data
(fix-quality 0, invalid-fix flag, empty coordinate fields throughout). -/
def searchingLines : List String :=
  ["$GNGGA,,,,,,0,00,99.99,,,,,,*56",
   "$GNGSA,A,1,,,,,,,,,,,,,99.99,99.99,99.99*2E",
   "$GNGSA,A,1,,,,,,,,,,,,,99.99,99.99,99.99*2E",
   "$GNRMC,,V,,,,,,,,,,N*4D",
   "$GNVTG,,,,,,,,,N*2E",
   "$GNGGA,,,,,,0,00,99.99,,,,,,*56",
   "$GNGSA,A,1,,,,,,,,,,,,,99.99,99.99,99.99*2E",
   "$GNGSA,A,1,,,,,,,,,,,,,99.99,99.99,99.99*2E"]

/-- The grouped points produced from the searching capture with the
default 1.0-second window. -/
def searchingPoints : List Point :=
  groupNmeaPoints ⟨1, 1⟩ (parseNmeaStream searchingLines false)

/-- Does an emitted point carry a position sentence with a non-null
coordinate pair? -/
def pointCoordsPresent (p : Point) : Bool :=
  (match p.rmc with
   | some r => r.latitude.isSome && r.longitude.isSome
   | none => false) ||
  (match p.gga with
   | some g => g.latitude.isSome && g.longitude.isSome
   | none => false)

/-- A GGA field list in which the HDOP field (index 7) is the non-empty
non-numeric string `abc`; every other field is well-formed. -/
def c3Fields : List String :=
  ["123519", "4807.038", "N", "01131.000", "E", "1", "08", "abc",
   "545.4", "M", "46.9", "M", "", ""]

/-- The same sentence as a full line with a valid checksum. -/
def c3BadLine : String :=
  "$GPGGA,123519,4807.038,N,01131.000,E,1,08,abc,545.4,M,46.9,M,,*00"

/-- An RMC carrying a time-of-day but no date. -/
def c8TimedRMC : RMCRec :=
  ⟨some (.tod ⟨20, 44, 16⟩), none, true, none, none, none, none, none⟩

/-- An RMC carrying a date but no time-of-day. -/
def c8DateOnlyRMC : RMCRec :=
  ⟨none, some ⟨2025, 4, 29⟩, false, none, none, none, none, none⟩

/-- A GGA carrying only a time-of-day (20:44:17). -/
def c2GGA : GGARec :=
  ⟨some (.tod ⟨20, 44, 17⟩), none, none, none, none, none, none, none, none, none⟩

/-- A grouping state with a pending GGA and a last-seen time of 20:44:15. -/
def c2State : GroupState :=
  { initState with
      gga := some ⟨some (.tod ⟨20, 44, 15⟩), none, none, none, none, none,
                   none, none, none, none⟩
      lastTime := some (.tod ⟨20, 44, 15⟩) }

/-- An RMC with coordinates and a bare time-of-day, no date. -/
def c1RMC : RMCRec :=
  ⟨some (.tod ⟨12, 35, 19⟩), none, true, some ⟨1, 1⟩, some ⟨2, 1⟩, none, none, none⟩

/-- The trackpoint written for `c1RMC` alone. -/
def c1Trkpt : Trkpt :=
  ⟨⟨1, 1⟩, ⟨2, 1⟩, none, some (formatTimestamp (.tod ⟨12, 35, 19⟩)), none⟩

/-- An RMC with coordinates and a bare time-of-day, for the timestamp
placeholder instantiation. -/
def c10RMC : RMCRec :=
  ⟨some (.tod ⟨7, 5, 3⟩), none, true, some ⟨10, 1⟩, some ⟨20, 1⟩, none, none, none⟩


/-- Characters that can appear in a clean NMEA payload or checksum field:
printable ASCII other than space and the `*` separator. -/
def cleanChars (l : List Char) : Prop :=
  ∀ c ∈ l, 32 < c.toNat ∧ c.toNat < 128 ∧ c ≠ '*'

instance (l : List Char) : Decidable (cleanChars l) := by
  unfold cleanChars
  infer_instance

/-! ## Theorems -/

theorem PyFloat.beq_iff_val {a b : PyFloat} (ha : 0 < a.den) (hb : 0 < b.den) :
    PyFloat.beq a b = true ↔ a.val = b.val := by
  have ha' : ((a.den : ℚ)) ≠ 0 := by exact_mod_cast Nat.pos_iff_ne_zero.mp ha
  have hb' : ((b.den : ℚ)) ≠ 0 := by exact_mod_cast Nat.pos_iff_ne_zero.mp hb
  rw [PyFloat.beq, beq_iff_eq, PyFloat.val, PyFloat.val, div_eq_div_iff ha' hb']
  constructor
  · intro h; exact_mod_cast congrArg (fun z : Int => (z : ℚ)) h
  · intro h; exact_mod_cast h

theorem PyFloat.ble_iff_val {a b : PyFloat} (ha : 0 < a.den) (hb : 0 < b.den) :
    PyFloat.ble a b = true ↔ a.val ≤ b.val := by
  have ha' : (0 : ℚ) < (a.den : ℚ) := by exact_mod_cast ha
  have hb' : (0 : ℚ) < (b.den : ℚ) := by exact_mod_cast hb
  rw [PyFloat.ble, decide_eq_true_iff, PyFloat.val, PyFloat.val, div_le_div_iff₀ ha' hb']
  constructor
  · intro h; exact_mod_cast h
  · intro h; exact_mod_cast h

theorem PyFloat.blt_iff_val {a b : PyFloat} (ha : 0 < a.den) (hb : 0 < b.den) :
    PyFloat.blt a b = true ↔ a.val < b.val := by
  have ha' : (0 : ℚ) < (a.den : ℚ) := by exact_mod_cast ha
  have hb' : (0 : ℚ) < (b.den : ℚ) := by exact_mod_cast hb
  rw [PyFloat.blt, decide_eq_true_iff, PyFloat.val, PyFloat.val, div_lt_div_iff₀ ha' hb']
  constructor
  · intro h; exact_mod_cast h
  · intro h; exact_mod_cast h

theorem PyFloat.pabs_val {a : PyFloat} : a.pabs.val = |a.val| := by
  rw [PyFloat.val, PyFloat.pabs, PyFloat.val, abs_div]
  simp [abs_of_nonneg]

/-- `should_reject_coordinates` in terms of the two rejectable flag
conditions of `detect_gps_errors` (the pole and meridian flags never
contribute). -/
theorem should_reject_iff_flags (lat lon : PyFloat) (strict : Bool) :
    should_reject_coordinates lat lon strict = true ↔
      (strict = true ∧
        ((PyFloat.beq lat ⟨0, 1⟩ && PyFloat.beq lon ⟨0, 1⟩) = true ∨
         (PyFloat.blt lat.pabs ⟨1, 10000⟩ && PyFloat.blt lon.pabs ⟨1, 10000⟩) = true)) := by
  cases strict with
  | false => simp [should_reject_coordinates]
  | true =>
    by_cases h0 : (PyFloat.beq lat ⟨0, 1⟩ && PyFloat.beq lon ⟨0, 1⟩) = true <;>
      by_cases h1 : (PyFloat.blt lat.pabs ⟨1, 10000⟩ && PyFloat.blt lon.pabs ⟨1, 10000⟩) = true <;>
      by_cases h2 : PyFloat.beq lat.pabs ⟨90, 1⟩ = true <;>
      by_cases h3 : PyFloat.beq lon.pabs ⟨180, 1⟩ = true <;>
      simp [should_reject_coordinates, detect_gps_errors, rejectable_errors, h0, h1, h2, h3]

theorem beq_zero_iff {a : PyFloat} (ha : 0 < a.den) :
    PyFloat.beq a ⟨0, 1⟩ = true ↔ a.val = 0 := by
  rw [PyFloat.beq_iff_val ha Nat.one_pos]
  simp [PyFloat.val]

theorem pabs_blt_iff {a : PyFloat} (q : Int) (d : Nat) (hd : 0 < d) (ha : 0 < a.den) :
    PyFloat.blt a.pabs ⟨q, d⟩ = true ↔ |a.val| < (q : ℚ) / (d : ℚ) := by
  rw [PyFloat.blt_iff_val (by simpa [PyFloat.pabs] using ha) hd, PyFloat.pabs_val]
  rfl

theorem pabs_beq_iff {a : PyFloat} (q : Int) (ha : 0 < a.den) :
    PyFloat.beq a.pabs ⟨q, 1⟩ = true ↔ |a.val| = (q : ℚ) := by
  rw [PyFloat.beq_iff_val (by simpa [PyFloat.pabs] using ha) Nat.one_pos, PyFloat.pabs_val]
  simp [PyFloat.val]

/-- The first component of `coordResolve` is the incoming latitude or has
been cleared; it is never replaced by a new value. -/
theorem coordResolve_fst (lat0 : Option PyFloat) (v : PyFloat) (strict : Bool) :
    (coordResolve lat0 v strict).1 = lat0 ∨ (coordResolve lat0 v strict).1 = none := by
  unfold coordResolve
  repeat' split
  all_goals simp_all

/-- A longitude surviving `coordResolve` passed the range check. -/
theorem coordResolve_snd {lat0 : Option PyFloat} {v : PyFloat} {strict : Bool}
    {lo : PyFloat} (h : (coordResolve lat0 v strict).2 = some lo) :
    validate_longitude lo = true := by
  unfold coordResolve at h
  repeat' split at h
  all_goals simp_all

theorem rmcLat0_valid {s : List String} {la : PyFloat}
    (h : rmcLat0 s = .ok (some la)) : validate_latitude la = true := by
  unfold rmcLat0 at h
  repeat' split at h
  all_goals (try simp_all)
  obtain ⟨h1, h2⟩ := h
  exact h2 ▸ h1

theorem ggaLat0_valid {s : List String} {la : PyFloat}
    (h : ggaLat0 s = .ok (some la)) : validate_latitude la = true := by
  unfold ggaLat0 at h
  repeat' split at h
  all_goals (try simp_all)
  all_goals (obtain ⟨h1, h2⟩ := h; exact h2 ▸ h1)

theorem rmcLonPair_ok {s : List String} {lat0 : Option PyFloat} {strict : Bool}
    {p : Option PyFloat × Option PyFloat}
    (h : rmcLonPair s lat0 strict = .ok p) :
    p = (lat0, none) ∨ ∃ v, p = coordResolve lat0 v strict := by
  unfold rmcLonPair at h
  repeat' split at h
  all_goals (try (cases h))
  all_goals (first | exact Or.inl rfl | exact Or.inr ⟨_, rfl⟩)

theorem ggaLonPair_ok {s : List String} {lat0 : Option PyFloat} {strict : Bool}
    {p : Option PyFloat × Option PyFloat}
    (h : ggaLonPair s lat0 strict = .ok p) :
    p = (lat0, none) ∨ ∃ v, p = coordResolve lat0 v strict := by
  unfold ggaLonPair at h
  repeat' split at h
  all_goals (try (cases h))
  all_goals (first | exact Or.inl rfl | exact Or.inr ⟨_, rfl⟩)

/-- A decoded RMC's coordinates come from the latitude block and the
longitude block. -/
theorem decodeRMC_coords {s : List String} {strict : Bool} {r : RMCRec}
    (h : decodeRMC s strict = .ok r) :
    ∃ lat0 p, rmcLat0 s = .ok lat0 ∧ rmcLonPair s lat0 strict = .ok p ∧
      r.latitude = p.1 ∧ r.longitude = p.2 := by
  unfold decodeRMC at h
  repeat' split at h
  all_goals (try (cases h))
  all_goals (exact ⟨_, _, by assumption, by assumption, rfl, rfl⟩)

/-- A decoded GGA's coordinates come from the latitude block and the
longitude block. -/
theorem decodeGGA_coords {s : List String} {strict : Bool} {g : GGARec}
    (h : decodeGGA s strict = .ok g) :
    ∃ lat0 p, ggaLat0 s = .ok lat0 ∧ ggaLonPair s lat0 strict = .ok p ∧
      g.latitude = p.1 ∧ g.longitude = p.2 := by
  unfold decodeGGA at h
  repeat' split at h
  all_goals (try (cases h))
  all_goals (exact ⟨_, _, by assumption, by assumption, rfl, rfl⟩)

/-- Claim C4 counterexample: the RMC field list
`123519,A,4807.038,N,18100.00,E` has an in-range latitude (48.1173) and a
converted longitude of 181 degrees, outside [-180, 180]. The decoder
discards only the longitude: the latitude survives in the produced
sentence, contradicting the claim that the whole coordinate pair is set
absent. -/
theorem C4_counterexample :
    decodeRMC ["123519", "A", "4807.038", "N", "18100.00", "E"] false =
      .ok ⟨some (.tod ⟨12, 35, 19⟩), none, true, some ⟨2887038, 60000⟩, none,
           none, none, none⟩ := by decide

/-- Claim C4 (amended): an out-of-range converted coordinate is discarded
individually — every latitude or longitude surviving in a decoded RMC or
GGA sentence passed its own range check ([-90, 90] resp. [-180, 180]) and
the sentence is still produced — but the other coordinate of the pair is
left intact rather than being set absent with it. -/
theorem C4_theorem :
    (∀ (s : List String) (strict : Bool) (r : RMCRec),
       decodeRMC s strict = .ok r →
       (∀ la, r.latitude = some la → validate_latitude la = true) ∧
       (∀ lo, r.longitude = some lo → validate_longitude lo = true)) ∧
    (∀ (s : List String) (strict : Bool) (g : GGARec),
       decodeGGA s strict = .ok g →
       (∀ la, g.latitude = some la → validate_latitude la = true) ∧
       (∀ lo, g.longitude = some lo → validate_longitude lo = true)) := by
  constructor
  · intro s strict r h
    obtain ⟨lat0, p, hlat0, hpair, hla, hlo⟩ := decodeRMC_coords h
    have hp := rmcLonPair_ok hpair
    constructor
    · intro la hsome
      rw [hla] at hsome
      have hlat : lat0 = some la := by
        rcases hp with hp | ⟨v, hp⟩
        · rw [hp] at hsome; exact hsome
        · rcases coordResolve_fst lat0 v strict with hf | hf
          · rw [hp, hf] at hsome; exact hsome
          · rw [hp, hf] at hsome; cases hsome
      rw [hlat] at hlat0
      exact rmcLat0_valid hlat0
    · intro lo hsome
      rw [hlo] at hsome
      rcases hp with hp | ⟨v, hp⟩
      · rw [hp] at hsome; cases hsome
      · rw [hp] at hsome
        exact coordResolve_snd hsome
  · intro s strict g h
    obtain ⟨lat0, p, hlat0, hpair, hla, hlo⟩ := decodeGGA_coords h
    have hp := ggaLonPair_ok hpair
    constructor
    · intro la hsome
      rw [hla] at hsome
      have hlat : lat0 = some la := by
        rcases hp with hp | ⟨v, hp⟩
        · rw [hp] at hsome; exact hsome
        · rcases coordResolve_fst lat0 v strict with hf | hf
          · rw [hp, hf] at hsome; exact hsome
          · rw [hp, hf] at hsome; cases hsome
      rw [hlat] at hlat0
      exact ggaLat0_valid hlat0
    · intro lo hsome
      rw [hlo] at hsome
      rcases hp with hp | ⟨v, hp⟩
      · rw [hp] at hsome; cases hsome
      · rw [hp] at hsome
        exact coordResolve_snd hsome

/-- Claim C4 witness: the amended theorem applied to the counterexample
input, whose surviving latitude 2887038/60000 (= 48.1173) indeed
validates. -/
theorem C4_witness : validate_latitude ⟨2887038, 60000⟩ = true :=
  (C4_theorem.1 ["123519", "A", "4807.038", "N", "18100.00", "E"] false
      ⟨some (.tod ⟨12, 35, 19⟩), none, true, some ⟨2887038, 60000⟩, none,
       none, none, none⟩ (by decide)).1 ⟨2887038, 60000⟩ (by decide)

/-- Claim C6: for every in-range coordinate pair, `should_reject_coordinates`
returns true exactly when strict mode is on and the pair is exactly zero
(null island) or near zero (both magnitudes below 0.0001); a pole
(|latitude| = 90) or 180th-meridian (|longitude| = 180) pair is flagged
with an advisory message in `detect_gps_errors` but never rejected in any
mode; and in the decoders a strict-mode rejection sets both coordinates
absent (concrete zero-pair instance, rejected under strict mode, kept
under default mode). -/
theorem C6_theorem (lat lon : PyFloat) (strict : Bool)
    (hla : 0 < lat.den) (hlo : 0 < lon.den)
    (_hrange : validate_coordinates lat lon = true) :
    (should_reject_coordinates lat lon strict = true ↔
      (strict = true ∧
        ((lat.val = 0 ∧ lon.val = 0) ∨
         (|lat.val| < 1/10000 ∧ |lon.val| < 1/10000)))) ∧
    (|lat.val| = 90 →
      "Latitude at pole - verify if correct" ∈ detect_gps_errors lat lon ∧
      should_reject_coordinates lat lon strict = false) ∧
    (|lon.val| = 180 →
      "Longitude at 180th meridian - verify if correct" ∈ detect_gps_errors lat lon ∧
      should_reject_coordinates lat lon strict = false) ∧
    decodeRMC ["123519", "A", "0000.0000", "N", "00000.0000", "E"] true =
      .ok ⟨some (.tod ⟨12, 35, 19⟩), none, true, none, none, none, none, none⟩ ∧
    decodeRMC ["123519", "A", "0000.0000", "N", "00000.0000", "E"] false =
      .ok ⟨some (.tod ⟨12, 35, 19⟩), none, true, some ⟨0, 600000⟩, some ⟨0, 600000⟩,
           none, none, none⟩ := by
  have hmain : should_reject_coordinates lat lon strict = true ↔
      (strict = true ∧
        ((lat.val = 0 ∧ lon.val = 0) ∨
         (|lat.val| < 1/10000 ∧ |lon.val| < 1/10000))) := by
    rw [should_reject_iff_flags]
    rw [Bool.and_eq_true, Bool.and_eq_true]
    rw [beq_zero_iff hla, beq_zero_iff hlo,
        pabs_blt_iff 1 10000 (by norm_num) hla, pabs_blt_iff 1 10000 (by norm_num) hlo]
    norm_num
  refine ⟨hmain, ?_, ?_, by decide, by decide⟩
  · intro hpole
    have h2 : PyFloat.beq lat.pabs ⟨90, 1⟩ = true := by
      rw [pabs_beq_iff 90 hla]
      exact_mod_cast hpole
    constructor
    · simp [detect_gps_errors, h2]
    · rw [Bool.eq_false_iff]
      intro hr
      rcases (hmain.mp hr).2 with ⟨hz, _⟩ | ⟨hn, _⟩
      · rw [hz] at hpole; norm_num at hpole
      · rw [hpole] at hn; norm_num at hn
  · intro hpole
    have h3 : PyFloat.beq lon.pabs ⟨180, 1⟩ = true := by
      rw [pabs_beq_iff 180 hlo]
      exact_mod_cast hpole
    constructor
    · simp [detect_gps_errors, h3]
    · rw [Bool.eq_false_iff]
      intro hr
      rcases (hmain.mp hr).2 with ⟨_, hz⟩ | ⟨_, hn⟩
      · rw [hz] at hpole; norm_num at hpole
      · rw [hpole] at hn; norm_num at hn

/-- Claim C6 witness: the rejection characterization instantiated at the
in-range pair (90, 100) under strict mode. -/
theorem C6_witness :
    should_reject_coordinates ⟨90, 1⟩ ⟨100, 1⟩ true = true ↔
      (true = true ∧
        ((PyFloat.val ⟨90, 1⟩ = 0 ∧ PyFloat.val ⟨100, 1⟩ = 0) ∨
         (|PyFloat.val ⟨90, 1⟩| < 1/10000 ∧ |PyFloat.val ⟨100, 1⟩| < 1/10000))) :=
  (C6_theorem ⟨90, 1⟩ ⟨100, 1⟩ true (by decide) (by decide) (by decide)).1

/-- Claim C9: the `DDDMM.MMMM` rule — a trailing negative-hemisphere
letter negates the converted value, and the raw fields `5222.81586,N` /
`00453.44075,E`, decoded through the full RMC decoder, give a latitude of
52 + 22.81586/60 and a longitude of 4 + 53.44075/60, within 1e-6 of
52.38026433 and 4.89067917 respectively. -/
theorem C9_theorem :
    (∀ raw : PyFloat, parseCoordVal raw true = (parseCoordVal raw false).neg) ∧
    decodeRMC ["123519", "A", "5222.81586", "N", "00453.44075", "E"] false =
      .ok ⟨some (.tod ⟨12, 35, 19⟩), none, true, some ⟨314281586, 6000000⟩,
           some ⟨29344075, 6000000⟩, none, none, none⟩ ∧
    PyFloat.val ⟨314281586, 6000000⟩ = 52 + (2281586 : ℚ) / 100000 / 60 ∧
    PyFloat.val ⟨29344075, 6000000⟩ = 4 + (5344075 : ℚ) / 100000 / 60 ∧
    |PyFloat.val ⟨314281586, 6000000⟩ - 52.38026433| ≤ 1 / 1000000 ∧
    |PyFloat.val ⟨29344075, 6000000⟩ - 4.89067917| ≤ 1 / 1000000 := by
  refine ⟨?_, by decide, ?_, ?_, ?_, ?_⟩
  · intro raw
    simp [parseCoordVal]
  · rw [PyFloat.val]; norm_num
  · rw [PyFloat.val]; norm_num
  · rw [PyFloat.val, abs_le]; norm_num
  · rw [PyFloat.val, abs_le]; norm_num

theorem get?_isSome_of_lt {l : List String} {i : Nat} (h : i < l.length) :
    ∃ v, l.get? i = some v := by
  cases hg : l.get? i with
  | some v => exact ⟨v, rfl⟩
  | none => exact absurd (List.get?_eq_none.mp hg) (by omega)

theorem lt_of_get?_some {l : List String} {i : Nat} {v : String}
    (h : l.get? i = some v) : i < l.length := by
  by_contra hc
  rw [List.get?_eq_none.mpr (by omega)] at h
  cases h

theorem ix_ne_ix {l : List String} {i : Nat} (h : i < l.length) :
    ix l i ≠ .error .indexError := by
  obtain ⟨v, hv⟩ := get?_isSome_of_lt h
  unfold ix
  rw [hv]
  simp

theorem optFloatLen_ne_ix (l : List String) (i : Nat) :
    optFloatLen l i ≠ .error .indexError := by
  unfold optFloatLen
  repeat' split
  all_goals simp

theorem optIntLen_ne_ix (l : List String) (i : Nat) :
    optIntLen l i ≠ .error .indexError := by
  unfold optIntLen
  repeat' split
  all_goals simp

theorem optFloatIx_ne_ix {l : List String} {i : Nat} (h : i < l.length) :
    optFloatIx l i ≠ .error .indexError := by
  obtain ⟨v, hv⟩ := get?_isSome_of_lt h
  unfold optFloatIx ix
  rw [hv]
  repeat' split
  all_goals simp_all

theorem optIntIx_ne_ix {l : List String} {i : Nat} (h : i < l.length) :
    optIntIx l i ≠ .error .indexError := by
  obtain ⟨v, hv⟩ := get?_isSome_of_lt h
  unfold optIntIx ix
  rw [hv]
  repeat' split
  all_goals simp_all

theorem intIx_ne_ix {l : List String} {i : Nat} (h : i < l.length) :
    intIx l i ≠ .error .indexError := by
  obtain ⟨v, hv⟩ := get?_isSome_of_lt h
  unfold intIx ix
  rw [hv]
  repeat' split
  all_goals simp_all

theorem timeFieldAt_ne_ix {l : List String} (h : 1 ≤ l.length) :
    timeFieldAt l ≠ .error .indexError := by
  obtain ⟨v, hv⟩ := get?_isSome_of_lt (show 0 < l.length by omega)
  unfold timeFieldAt ix
  rw [hv]
  simp

theorem rmcLat0_ne_ix (s : List String) : rmcLat0 s ≠ .error .indexError := by
  unfold rmcLat0
  repeat' split
  all_goals simp

theorem rmcLonPair_ne_ix (s : List String) (lat0 : Option PyFloat) (strict : Bool) :
    rmcLonPair s lat0 strict ≠ .error .indexError := by
  unfold rmcLonPair
  repeat' split
  all_goals simp

theorem rmcMagVar_ne_ix (s : List String) : rmcMagVar s ≠ .error .indexError := by
  unfold rmcMagVar
  repeat' split
  all_goals simp

theorem gsaIdsGo_ne_ix (s : List String) (idxs : List Nat) (acc : List Int) :
    gsaIdsGo s idxs acc ≠ .error .indexError := by
  induction idxs generalizing acc with
  | nil => simp [gsaIdsGo]
  | cons i rest ih =>
    unfold gsaIdsGo
    repeat' split
    all_goals (first | exact ih _ | simp)

theorem gsaIds_ne_ix (s : List String) : gsaIds s ≠ .error .indexError := by
  unfold gsaIds
  exact gsaIdsGo_ne_ix s _ _



theorem gsvSatAt_ne_ix (s : List String) (b : Nat) :
    gsvSatAt s b ≠ .error .indexError := by
  intro h
  unfold gsvSatAt at h
  split at h
  case h_1 o f hsome hf =>
    have hb3 : b + 3 < s.length := lt_of_get?_some hsome
    split at h
    · cases h
    · split at h
      · cases h
      · split at h
        case _ e heq =>
          injection h with he
          subst he
          exact optIntIx_ne_ix (by omega) heq
        case _ =>
          split at h
          case _ e heq =>
            injection h with he
            subst he
            exact optIntIx_ne_ix (by omega) heq
          case _ =>
            split at h
            case _ e heq =>
              injection h with he
              subst he
              exact optIntIx_ne_ix (by omega) heq
            case _ => cases h
  case h_2 => cases h



theorem decodeRMC_ne_ix {s : List String} {strict : Bool} (hlen : 1 ≤ s.length) :
    decodeRMC s strict ≠ .error .indexError := by
  intro h
  unfold decodeRMC at h
  repeat' split at h
  all_goals (try (injection h with he; subst he))
  all_goals (first
    | exact timeFieldAt_ne_ix hlen (by assumption)
    | exact rmcLat0_ne_ix s (by assumption)
    | exact rmcLonPair_ne_ix s _ strict (by assumption)
    | exact optFloatLen_ne_ix s 6 (by assumption)
    | exact optFloatLen_ne_ix s 7 (by assumption)
    | exact rmcMagVar_ne_ix s (by assumption)
    | simp at h)

theorem ggaLat0_ne_ix {s : List String} (hlen : 3 ≤ s.length) :
    ggaLat0 s ≠ .error .indexError := by
  intro h
  unfold ggaLat0 at h
  repeat' split at h
  all_goals (try (injection h with he; subst he))
  all_goals (first
    | exact ix_ne_ix (show 1 < s.length by omega) (by assumption)
    | exact ix_ne_ix (show 2 < s.length by omega) (by assumption)
    | simp at h)

theorem ggaLonPair_ne_ix {s : List String} {lat0 : Option PyFloat} {strict : Bool}
    (hlen : 5 ≤ s.length) :
    ggaLonPair s lat0 strict ≠ .error .indexError := by
  intro h
  unfold ggaLonPair at h
  repeat' split at h
  all_goals (try (injection h with he; subst he))
  all_goals (first
    | exact ix_ne_ix (show 3 < s.length by omega) (by assumption)
    | exact ix_ne_ix (show 4 < s.length by omega) (by assumption)
    | simp at h)

theorem decodeGGA_ne_ix {s : List String} {strict : Bool} (hlen : 9 ≤ s.length) :
    decodeGGA s strict ≠ .error .indexError := by
  intro h
  unfold decodeGGA at h
  repeat' split at h
  all_goals (try (injection h with he; subst he))
  all_goals (first
    | exact timeFieldAt_ne_ix (show 1 ≤ s.length by omega) (by assumption)
    | exact ggaLat0_ne_ix (show 3 ≤ s.length by omega) (by assumption)
    | exact ggaLonPair_ne_ix (show 5 ≤ s.length by omega) (by assumption)
    | exact optIntIx_ne_ix (show 5 < s.length by omega) (by assumption)
    | exact optIntIx_ne_ix (show 6 < s.length by omega) (by assumption)
    | exact optFloatIx_ne_ix (show 7 < s.length by omega) (by assumption)
    | exact optFloatIx_ne_ix (show 8 < s.length by omega) (by assumption)
    | exact optFloatLen_ne_ix s 10 (by assumption)
    | exact optFloatLen_ne_ix s 12 (by assumption)
    | exact optIntLen_ne_ix s 13 (by assumption)
    | simp at h)

theorem decodeGSA_ne_ix {s : List String} (hlen : 2 ≤ s.length) :
    decodeGSA s ≠ .error .indexError := by
  intro h
  unfold decodeGSA at h
  repeat' split at h
  all_goals (try (injection h with he; subst he))
  all_goals (first
    | exact ix_ne_ix (show 0 < s.length by omega) (by assumption)
    | exact optIntIx_ne_ix (show 1 < s.length by omega) (by assumption)
    | exact gsaIds_ne_ix s (by assumption)
    | exact optFloatLen_ne_ix s 14 (by assumption)
    | exact optFloatLen_ne_ix s 15 (by assumption)
    | exact optFloatLen_ne_ix s 16 (by assumption)
    | simp at h)

theorem decodeVTG_ne_ix {s : List String} (hlen : 7 ≤ s.length) :
    decodeVTG s ≠ .error .indexError := by
  intro h
  unfold decodeVTG at h
  repeat' split at h
  all_goals (try (injection h with he; subst he))
  all_goals (first
    | exact optFloatIx_ne_ix (show 0 < s.length by omega) (by assumption)
    | exact optFloatIx_ne_ix (show 2 < s.length by omega) (by assumption)
    | exact optFloatIx_ne_ix (show 4 < s.length by omega) (by assumption)
    | exact optFloatIx_ne_ix (show 6 < s.length by omega) (by assumption)
    | simp at h)

theorem decodeGSV_ne_ix {s : List String} (hlen : 3 ≤ s.length) :
    decodeGSV s ≠ .error .indexError := by
  intro h
  unfold decodeGSV at h
  repeat' split at h
  all_goals (try (injection h with he; subst he))
  all_goals (first
    | exact intIx_ne_ix (show 0 < s.length by omega) (by assumption)
    | exact intIx_ne_ix (show 1 < s.length by omega) (by assumption)
    | exact intIx_ne_ix (show 2 < s.length by omega) (by assumption)
    | exact gsvSatAt_ne_ix s 3 (by assumption)
    | exact gsvSatAt_ne_ix s 7 (by assumption)
    | exact gsvSatAt_ne_ix s 11 (by assumption)
    | exact gsvSatAt_ne_ix s 15 (by assumption)
    | simp at h)

/-- Claim C3 counterexample: on a checksum-valid GGA whose HDOP field is
the non-numeric string `abc`, the decoder raises a value error instead of
producing the sentence with the field absent. -/
theorem C3_counterexample : decodeGGA c3Fields false = .error .valueError := by decide

/-- Claim C3 (amended): a non-empty non-numeric numeric field makes the
typed decoder raise; `parse` wraps the failure and `parse_nmea_stream`
drops the whole sentence (with a logged warning) rather than leaving the
single field absent — but the stream is not aborted: the surrounding
lines decode exactly as they would without the bad line. -/
theorem C3_theorem :
    (∀ strict : Bool, decodeGGA c3Fields strict = .error .valueError) ∧
    (∀ strict : Bool, NMEAparse c3BadLine strict = .error .valueError) ∧
    (∀ (pre suf : List String) (strict : Bool),
       parseNmeaStream (pre ++ c3BadLine :: suf) strict =
         parseNmeaStream pre strict ++ parseNmeaStream suf strict) := by
  refine ⟨?_, ?_, ?_⟩
  · intro strict; cases strict <;> decide
  · intro strict; cases strict <;> decide
  · intro pre suf strict
    have hbad : parseStreamLine strict c3BadLine = none := by
      cases strict <;> decide
    simp [parseNmeaStream, List.filterMap_append, List.filterMap_cons, hbad]

/-- Claim C7 counterexample: each of the five typed decoders indexes
unconditionally into the field list and raises `IndexError` on a list
shorter than its fixed prefix. -/
theorem C7_counterexample :
    decodeRMC [] false = .error .indexError ∧
    decodeGGA ["123519"] false = .error .indexError ∧
    decodeGSA [] = .error .indexError ∧
    decodeVTG ["1.0", "T"] = .error .indexError ∧
    decodeGSV ["3", "1"] = .error .indexError := by decide

/-- Claim C7 (amended): fields beyond the list length are treated as
absent only past a per-type minimum prefix that each decoder reads
unconditionally — at least 1 field for RMC, 9 for GGA, 2 for GSA, 7 for
VTG and 3 for GSV. A field list meeting its decoder's minimum never
raises an out-of-bounds indexing error; below the minimum the decoder
raises `IndexError` (which `parse` wraps, so the sentence is dropped from
the stream). -/
theorem C7_theorem :
    (∀ (s : List String) (strict : Bool), 1 ≤ s.length →
        decodeRMC s strict ≠ .error .indexError) ∧
    (∀ (s : List String) (strict : Bool), 9 ≤ s.length →
        decodeGGA s strict ≠ .error .indexError) ∧
    (∀ s : List String, 2 ≤ s.length → decodeGSA s ≠ .error .indexError) ∧
    (∀ s : List String, 7 ≤ s.length → decodeVTG s ≠ .error .indexError) ∧
    (∀ s : List String, 3 ≤ s.length → decodeGSV s ≠ .error .indexError) :=
  ⟨fun _ _ h => decodeRMC_ne_ix h, fun _ _ h => decodeGGA_ne_ix h,
   fun _ h => decodeGSA_ne_ix h, fun _ h => decodeVTG_ne_ix h,
   fun _ h => decodeGSV_ne_ix h⟩

/-- Claim C7 witness: the RMC searching sentence (12 fields, most empty)
decodes without an indexing error. -/
theorem C7_witness :
    decodeRMC ["", "V", "", "", "", "", "", "", "", "", "", "N"] false ≠
      .error .indexError :=
  C7_theorem.1 ["", "V", "", "", "", "", "", "", "", "", "", "N"] false (by decide)

/-- Claim C1 counterexample: the eight-line searching sequence does not
yield zero FixRecords from `group_nmea_points` — it yields exactly two
(one mid-stream on the duplicate-GGA flush, one at end of stream), and
neither carries a position sentence with a non-null coordinate pair. -/
theorem C1_counterexample :
    searchingPoints.length = 2 ∧
    searchingPoints.all (fun p => !(pointCoordsPresent p)) = true := by decide

/-- Claim C1 (amended): `group_nmea_points` emits a FixRecord whenever a
pending RMC or GGA exists, with no coordinate requirement; the
invariant holds one stage later, at the serializer: every trackpoint
actually written by `add_trackpoint` takes both coordinates from its
preferred position sentence (the RMC when present, else the GGA), so a
record without a non-null pair produces no output — in particular the
eight-line searching sequence yields zero written trackpoints. -/
theorem C1_theorem :
    (∀ (rmc : Option RMCRec) (gga : Option GGARec) (tp : Trkpt),
       addTrackpoint rmc gga = some tp →
       (∀ r, rmc = some r → r.latitude = some tp.lat ∧ r.longitude = some tp.lon) ∧
       (rmc = none →
         ∃ g, gga = some g ∧ g.latitude = some tp.lat ∧ g.longitude = some tp.lon)) ∧
    writeTrackpoints searchingPoints = [] ∧
    searchingPoints.length = 2 := by
  refine ⟨?_, by decide, by decide⟩
  intro rmc gga tp h
  cases rmc with
  | some r =>
    refine ⟨fun r2 hr2 => ?_, fun hn => by cases hn⟩
    cases hr2
    cases hla : r.latitude with
    | none => cases gga <;> simp [addTrackpoint, hla] at h
    | some la =>
      cases hlo : r.longitude with
      | none => cases gga <;> simp [addTrackpoint, hla, hlo] at h
      | some lo =>
        cases gga <;> simp only [addTrackpoint, hla, hlo] at h <;> cases h <;>
          exact ⟨rfl, rfl⟩
  | none =>
    cases gga with
    | none => cases h
    | some g =>
      constructor
      · intro r2 hr2
        cases hr2
      intro hx
      refine ⟨g, rfl, ?_⟩
      cases hla : g.latitude with
      | none => simp [addTrackpoint, hla] at h
      | some la =>
        cases hlo : g.longitude with
        | none => simp [addTrackpoint, hla, hlo] at h
        | some lo =>
          simp only [addTrackpoint, hla, hlo] at h
          cases h
          exact ⟨rfl, rfl⟩

/-- Claim C1 witness: the serializer invariant applied to a written
trackpoint: its coordinates are the preferred RMC's. -/
theorem C1_witness :
    c1RMC.latitude = some c1Trkpt.lat ∧ c1RMC.longitude = some c1Trkpt.lon :=
  (C1_theorem.1 (some c1RMC) none c1Trkpt (by decide)).1 c1RMC rfl

/-- Claim C2: when an incoming RMC or GGA carries a time-of-day, a
last-seen time is recorded and their distance in seconds since midnight
strictly exceeds the grouping window, the time-window flush emits a
FixRecord from the current state exactly when a pending RMC or GGA
exists, and clears exactly the RMC, GGA, VTG and last-seen-time slots —
GSA, GSV (and the inherited date) survive; the subsequent store phase of
the same loop iteration emits nothing further. The final conjunct links
the code's comparison to the arithmetic statement: exceeding the window
is `tw < |msg_secs - last_secs|` over the rationals. -/
theorem C2_theorem (tw : PyFloat) (st : GroupState) (s : Sentence)
    (mt lt : Timestamp)
    (hpos : isPosSentence s = true)
    (hmt : sentenceTime s = some mt)
    (hlt : st.lastTime = some lt)
    (hdiff : PyFloat.blt tw ⟨|(mt.secs : Int) - (lt.secs : Int)|, 1⟩ = true) :
    windowFlush tw st s =
      ({ st with rmc := none, gga := none, vtg := none, lastTime := none },
       if st.rmc.isSome || st.gga.isSome then [getPoint st] else []) ∧
    (windowFlush tw st s).1.gsa = st.gsa ∧
    (windowFlush tw st s).1.gsv = st.gsv ∧
    (windowFlush tw st s).1.currentDate = st.currentDate ∧
    (stepSentence tw st s).2 =
      (if st.rmc.isSome || st.gga.isSome then [getPoint st] else []) ∧
    (0 < tw.den →
      (PyFloat.blt tw ⟨|(mt.secs : Int) - (lt.secs : Int)|, 1⟩ = true ↔
        tw.val < |(mt.secs : ℚ) - (lt.secs : ℚ)|)) := by
  have hwf : windowFlush tw st s =
      (clearPos st, if st.rmc.isSome || st.gga.isSome then [getPoint st] else []) := by
    unfold windowFlush
    rw [hpos, hmt, hlt]
    simp [hdiff]
  refine ⟨hwf, by rw [hwf]; simp [clearPos], by rw [hwf]; simp [clearPos],
    by rw [hwf]; simp [clearPos], ?_, ?_⟩
  · unfold stepSentence
    rw [hwf]
    cases s with
    | rmc r => simp [storeSentence, clearPos]
    | gga g => simp [storeSentence, clearPos]
    | gsa x => simp [isPosSentence] at hpos
    | vtg x => simp [isPosSentence] at hpos
    | gsv x => simp [isPosSentence] at hpos
    | unknown t ty d => simp [isPosSentence] at hpos
  · intro htw
    rw [PyFloat.blt_iff_val htw Nat.one_pos]
    have hv : (PyFloat.mk (|(mt.secs : Int) - (lt.secs : Int)|) 1).val =
        |(mt.secs : ℚ) - (lt.secs : ℚ)| := by
      rw [PyFloat.val]
      push_cast
      simp
    rw [hv]

/-- Claim C2 witness: the flush equation instantiated at a state holding
a pending GGA (last-seen 20:44:15) receiving a GGA timed 20:44:17, two
seconds later than the recorded time with a window of 1.0. -/
theorem C2_witness :
    (stepSentence ⟨1, 1⟩ c2State (.gga c2GGA)).2 =
      (if c2State.rmc.isSome || c2State.gga.isSome then [getPoint c2State] else []) :=
  (C2_theorem ⟨1, 1⟩ c2State (.gga c2GGA) (.tod ⟨20, 44, 17⟩) (.tod ⟨20, 44, 15⟩)
      (by decide) (by decide) (by decide) (by decide)).2.2.2.2.1

/-- Claim C8 counterexample: after an RMC with a time-of-day (recording a
last-seen time), storing an RMC that carries a date but no time-of-day
(i) does not update the inherited date — contradicting "regardless of
whether the RMC also carries a time-of-day" — and (ii) clears the
last-seen time instead of leaving it at its recorded value. -/
theorem C8_counterexample :
    (stepSentence ⟨1, 1⟩ initState (.rmc c8TimedRMC)).1.lastTime =
      some (.tod ⟨20, 44, 16⟩) ∧
    (stepSentence ⟨1, 1⟩
        (stepSentence ⟨1, 1⟩ initState (.rmc c8TimedRMC)).1
        (.rmc c8DateOnlyRMC)).1.currentDate = none ∧
    (stepSentence ⟨1, 1⟩
        (stepSentence ⟨1, 1⟩ initState (.rmc c8TimedRMC)).1
        (.rmc c8DateOnlyRMC)).1.lastTime = none := by decide

/-- Claim C8 (amended): the store phase stores the sentence into its type
slot; for RMC and GGA it sets last-seen-time to the sentence's
time-of-day — overwriting it with absent when the sentence carries none,
rather than leaving it untouched — and it updates the inherited date only
when the incoming RMC carries both a time-of-day and a date (an RMC with
a date but no time does not update it). -/
theorem C8_theorem (st : GroupState) :
    (∀ r : RMCRec, (st.rmc.isSome && st.gga.isSome) = false →
       storeSentence st (.rmc r) =
         ({ st with
             rmc := some r
             lastTime := r.time
             currentDate := (if r.time.isSome && r.date.isSome then r.date
                             else st.currentDate) }, [])) ∧
    (∀ g : GGARec, (st.gga.isSome && st.rmc.isSome) = false →
       storeSentence st (.gga g) =
         ({ st with gga := some g, lastTime := g.time }, [])) ∧
    (∀ x, storeSentence st (.gsa x) = ({ st with gsa := some x }, [])) ∧
    (∀ x, storeSentence st (.vtg x) = ({ st with vtg := some x }, [])) ∧
    (∀ x, storeSentence st (.gsv x) = ({ st with gsv := some x }, [])) := by
  refine ⟨?_, ?_, fun x => rfl, fun x => rfl, fun x => rfl⟩
  · intro r h
    simp only [storeSentence, h, Bool.false_eq_true, if_false]
    split <;> rfl
  · intro g h
    simp only [storeSentence, h, Bool.false_eq_true, if_false]

/-- Claim C8 witness: the store equation at the empty state receiving the
date-only RMC. -/
theorem C8_witness :
    storeSentence initState (.rmc c8DateOnlyRMC) =
      ({ initState with
          rmc := some c8DateOnlyRMC
          lastTime := c8DateOnlyRMC.time
          currentDate := (if c8DateOnlyRMC.time.isSome && c8DateOnlyRMC.date.isSome
                          then c8DateOnlyRMC.date else initState.currentDate) }, []) :=
  (C8_theorem initState).1 c8DateOnlyRMC (by decide)

/-- Claim C10: a written trackpoint whose preferred position sentence
carries a bare time-of-day (no date ever merged) still gets a `<time>`
element, and its date part is the placeholder 1900-01-01 substituted by
`strftime` on a bare `datetime.time` — both when the RMC is preferred and
when only a GGA is present. -/
theorem C10_theorem :
    (∀ (r : RMCRec) (gga : Option GGARec) (la lo : PyFloat) (t : Time),
       r.latitude = some la → r.longitude = some lo → r.time = some (.tod t) →
       ∃ tp, addTrackpoint (some r) gga = some tp ∧
         tp.time = some (fmtDate ⟨1900, 1, 1⟩ ++ "T" ++ fmtTimePart t)) ∧
    (∀ (g : GGARec) (la lo : PyFloat) (t : Time),
       g.latitude = some la → g.longitude = some lo → g.time = some (.tod t) →
       ∃ tp, addTrackpoint none (some g) = some tp ∧
         tp.time = some (fmtDate ⟨1900, 1, 1⟩ ++ "T" ++ fmtTimePart t)) ∧
    fmtDate ⟨1900, 1, 1⟩ = "1900-01-01" := by
  refine ⟨?_, ?_, by decide⟩
  · intro r gga la lo t hla hlo ht
    cases gga <;> simp only [addTrackpoint, hla, hlo, ht] <;> exact ⟨_, rfl, rfl⟩
  · intro g la lo t hla hlo ht
    simp only [addTrackpoint, hla, hlo, ht]
    exact ⟨_, rfl, rfl⟩

/-- Claim C10 witness: the placeholder timestamp for an RMC timed
07:05:03 with no date. -/
theorem C10_witness :
    ∃ tp, addTrackpoint (some c10RMC) none = some tp ∧
      tp.time = some (fmtDate ⟨1900, 1, 1⟩ ++ "T" ++ fmtTimePart ⟨7, 5, 3⟩) :=
  C10_theorem.1 c10RMC none ⟨10, 1⟩ ⟨20, 1⟩ ⟨7, 5, 3⟩ rfl rfl rfl

theorem not_ws_of_gt32 {c : Char} (h : 32 < c.toNat) : c.isWhitespace = false := by
  have h1 : c ≠ ' ' := fun he => by rw [he] at h; exact absurd h (by decide)
  have h2 : c ≠ '\t' := fun he => by rw [he] at h; exact absurd h (by decide)
  have h3 : c ≠ '\x0d' := fun he => by rw [he] at h; exact absurd h (by decide)
  have h4 : c ≠ '\n' := fun he => by rw [he] at h; exact absurd h (by decide)
  simp [Char.isWhitespace, h1, h2, h3, h4]

theorem ne_null_of_gt32 {c : Char} (h : 32 < c.toNat) : c ≠ '\x00' :=
  fun he => by rw [he] at h; exact absurd h (by decide)

theorem dropWhile_false {p : Char → Bool} {l : List Char}
    (h : ∀ c ∈ l, p c = false) : l.dropWhile p = l := by
  cases l with
  | nil => rfl
  | cons c t =>
    rw [List.dropWhile_cons, h c (by simp)]
    simp

theorem stripChars_id {l : List Char} (h : ∀ c ∈ l, c.isWhitespace = false) :
    stripChars l = l := by
  unfold stripChars
  rw [dropWhile_false h, dropWhile_false (fun c hc => h c (List.mem_reverse.mp hc)),
      List.reverse_reverse]

theorem filter_nonull {l : List Char} (h : ∀ c ∈ l, c ≠ '\x00') :
    (l.filter (fun c => c ≠ '\x00')) = l :=
  List.filter_eq_self.mpr (fun a ha => by simp [h a ha])

theorem splitOnChar_sepFree {sep : Char} {l : List Char} (h : ∀ c ∈ l, c ≠ sep) :
    splitOnChar sep l = [l] := by
  induction l with
  | nil => rfl
  | cons c t ih =>
    have hc : c ≠ sep := h c (by simp)
    have ht := ih (fun x hx => h x (by simp [hx]))
    unfold splitOnChar at ht ⊢
    simp only [List.foldr_cons]
    rw [ht]
    simp [hc]

theorem splitOnChar_append {sep : Char} {a b : List Char}
    (ha : ∀ c ∈ a, c ≠ sep) (hb : ∀ c ∈ b, c ≠ sep) :
    splitOnChar sep (a ++ sep :: b) = [a, b] := by
  induction a with
  | nil =>
    have hsb := splitOnChar_sepFree hb
    unfold splitOnChar at hsb ⊢
    simp only [List.nil_append, List.foldr_cons]
    rw [hsb]
    simp
  | cons c t ih =>
    have hc : c ≠ sep := ha c (by simp)
    have ht := ih (fun x hx => ha x (by simp [hx]))
    unfold splitOnChar at ht ⊢
    simp only [List.cons_append, List.foldr_cons]
    rw [ht]
    simp [hc]



theorem foldl_xor_start (l : List Char) (a : Nat) :
    l.foldl (fun x c => x ^^^ c.toNat) a = a ^^^ xorFold l := by
  induction l generalizing a with
  | nil => simp [xorFold]
  | cons c t ih =>
    simp only [List.foldl_cons, xorFold]
    rw [ih (a ^^^ c.toNat), ih (0 ^^^ c.toNat)]
    simp [Nat.xor_assoc]

theorem xorFold_cons (c : Char) (t : List Char) :
    xorFold (c :: t) = c.toNat ^^^ xorFold t := by
  unfold xorFold
  simp only [List.foldl_cons]
  rw [foldl_xor_start]
  simp [xorFold]

theorem xor_left_comm (a b c : Nat) : a ^^^ (b ^^^ c) = b ^^^ (a ^^^ c) := by
  rw [← Nat.xor_assoc, Nat.xor_comm a b, Nat.xor_assoc]

theorem xorFold_set {l : List Char} {i : Nat} (h : i < l.length) (c : Char) :
    xorFold (l.set i c) = xorFold l ^^^ (l.get ⟨i, h⟩).toNat ^^^ c.toNat := by
  induction l generalizing i with
  | nil => simp at h
  | cons d t ih =>
    cases i with
    | zero =>
      simp only [List.set, List.get]
      rw [xorFold_cons, xorFold_cons]
      simp only [Nat.xor_assoc, Nat.xor_comm, xor_left_comm]
      rw [Nat.xor_cancel_left]
    | succ j =>
      have hj : j < t.length := by simpa using h
      simp only [List.set, List.get]
      rw [xorFold_cons, xorFold_cons, ih hj]
      simp [Nat.xor_assoc]

set_option maxRecDepth 8192 in
theorem xor_lt_128 : ∀ a < 128, ∀ b < 128, a ^^^ b < 128 := by decide

theorem xorFold_lt {l : List Char} (h : ∀ c ∈ l, c.toNat < 128) :
    xorFold l < 128 := by
  induction l with
  | nil => decide
  | cons c t ih =>
    rw [xorFold_cons]
    exact xor_lt_128 _ (h c (by simp)) _ (ih (fun x hx => h x (by simp [hx])))



set_option maxRecDepth 8192 in
theorem hexRender_two :
    ∀ n < 256, hexRender n = ⟨[hexDigitChar (n / 16), hexDigitChar (n % 16)]⟩ := by decide

set_option maxRecDepth 8192 in
theorem hexDigitChar_inj :
    ∀ a < 16, ∀ b < 16, hexDigitChar a = hexDigitChar b → a = b := by decide

theorem hexRender_inj256 {a b : Nat} (ha : a < 256) (hb : b < 256)
    (h : hexRender a = hexRender b) : a = b := by
  rw [hexRender_two a ha, hexRender_two b hb] at h
  injection h with hdata
  injection hdata with h1 hrest
  injection hrest with h2 _
  have e1 : a / 16 = b / 16 :=
    hexDigitChar_inj _ (by omega) _ (by omega) h1
  have e2 : a % 16 = b % 16 :=
    hexDigitChar_inj _ (by omega) _ (by omega) h2
  omega

theorem dispatch_ne_checksum (talker stype : String) (sdata : List String)
    (strict : Bool) :
    dispatchSentence talker stype sdata strict ≠ .error .checksumError := by
  unfold dispatchSentence
  repeat' split
  all_goals simp



theorem NMEAparse_clean (payload ck : List Char) (strict : Bool)
    (hp : cleanChars payload) (hc : cleanChars ck) :
    NMEAparse ⟨'$' :: payload ++ '*' :: ck⟩ strict =
      (if hexRender (xorFold payload) = pyUpper ⟨ck⟩ then
        (let parts := pySplit ⟨payload⟩ ','
         let sid := parts.headD ""
         if sid.length < 5 then .error .valueError
         else dispatchSentence (pySlice sid 0 2) ⟨sid.toList.drop 2⟩ (parts.drop 1) strict)
       else .error .checksumError) := by
  have hmem : ∀ c ∈ '$' :: payload ++ '*' :: ck, 32 < c.toNat := by
    intro c hc2
    simp only [List.mem_cons, List.mem_append] at hc2
    rcases hc2 with (rfl | h2) | rfl | h2
    · decide
    · exact (hp c h2).1
    · decide
    · exact (hc c h2).1
  have hnn : removeNulls ⟨'$' :: payload ++ '*' :: ck⟩ = ⟨'$' :: payload ++ '*' :: ck⟩ := by
    unfold removeNulls
    rw [show (⟨'$' :: payload ++ '*' :: ck⟩ : String).toList
        = '$' :: payload ++ '*' :: ck from rfl]
    rw [filter_nonull (fun c hc2 => ne_null_of_gt32 (hmem c hc2))]
  have hst : pyStrip ⟨'$' :: payload ++ '*' :: ck⟩ = ⟨'$' :: payload ++ '*' :: ck⟩ := by
    unfold pyStrip
    rw [show (⟨'$' :: payload ++ '*' :: ck⟩ : String).toList
        = '$' :: payload ++ '*' :: ck from rfl]
    rw [stripChars_id (fun c hc2 => not_ws_of_gt32 (hmem c hc2))]
  have hsplit : pySplit ⟨'$' :: payload ++ '*' :: ck⟩ '*' = [⟨'$' :: payload⟩, ⟨ck⟩] := by
    unfold pySplit
    rw [show (⟨'$' :: payload ++ '*' :: ck⟩ : String).toList
        = ('$' :: payload) ++ '*' :: ck from rfl]
    rw [splitOnChar_append (fun c hc2 => by
          rcases List.mem_cons.mp hc2 with rfl | h2
          · decide
          · exact (hp c h2).2.2)
        (fun c hc2 => (hc c hc2).2.2)]
    rfl
  have hsck : pyStrip ⟨ck⟩ = ⟨ck⟩ := by
    unfold pyStrip
    rw [show (⟨ck⟩ : String).toList = ck from rfl,
        stripChars_id (fun c hc2 => not_ws_of_gt32 (hc c hc2).1)]
  have hsplit2 : pySplit (pyStrip (removeNulls ⟨'$' :: payload ++ '*' :: ck⟩)) '*' =
      [⟨'$' :: payload⟩, ⟨ck⟩] := by
    rw [hnn, hst]
    exact hsplit
  have hck2 : pyUpper (pyStrip ⟨ck⟩) = pyUpper ⟨ck⟩ := by rw [hsck]
  have hds : startsWithDollar ⟨'$' :: payload ++ '*' :: ck⟩ = true := rfl
  unfold NMEAparse
  dsimp only
  generalize hq : pySplit (pyStrip (removeNulls ⟨'$' :: payload ++ '*' :: ck⟩)) '*' = q
  rw [hsplit2] at hq
  subst hq
  rw [hds]
  simp only [not_true, if_false, ite_false]
  rw [hck2]
  by_cases hcksum : hexRender (xorFold payload) = pyUpper ⟨ck⟩
  · rw [if_pos hcksum, if_neg (by simp [hcksum])]
    rfl
  · rw [if_neg hcksum, if_pos (by simp [hcksum])]



set_option maxRecDepth 8192 in
theorem hexDigitChar_mem :
    ∀ n < 16, hexDigitChar n ∈ "0123456789ABCDEF".toList := by decide

theorem char_toNat_inj {a b : Char} (h : a.toNat = b.toNat) : a = b :=
  Char.eq_of_val_eq (UInt32.toNat.inj h)

/-- C5: for clean payload and checksum fields, NMEASentence.parse passes checksum
validation if and only if the XOR-fold of the payload characters (after the `$`,
before the `*`), rendered in two uppercase hexadecimal digits, equals the
upper-cased checksum field; the rendering is exactly two uppercase hex digits;
and on any passing line, replacing a single payload character by a different
clean character makes validation fail with a checksum error. -/
theorem C5_theorem (payload ck : List Char) (strict : Bool)
    (hp : cleanChars payload) (hc : cleanChars ck) :
    (NMEAparse ⟨'$' :: payload ++ '*' :: ck⟩ strict ≠ .error .checksumError ↔
      hexRender (xorFold payload) = pyUpper ⟨ck⟩) ∧
    (hexRender (xorFold payload)).length = 2 ∧
    (∀ d ∈ (hexRender (xorFold payload)).toList, d ∈ "0123456789ABCDEF".toList) ∧
    (hexRender (xorFold payload) = pyUpper ⟨ck⟩ →
      ∀ i : Fin payload.length, ∀ c : Char,
        32 < c.toNat → c.toNat < 128 → c ≠ '*' → c ≠ payload.get i →
        NMEAparse ⟨'$' :: payload.set i c ++ '*' :: ck⟩ strict =
          .error .checksumError) := by
  have h128 : xorFold payload < 128 := xorFold_lt (fun c hc2 => (hp c hc2).2.1)
  have h256 : xorFold payload < 256 := lt_trans h128 (by norm_num)
  have hclean := NMEAparse_clean payload ck strict hp hc
  refine ⟨?_, ?_, ?_, ?_⟩
  · constructor
    · intro hne
      by_contra hck
      rw [hclean, if_neg hck] at hne
      exact hne rfl
    · intro hck hcontra
      rw [hclean, if_pos hck] at hcontra
      dsimp only at hcontra
      split at hcontra
      · exact absurd hcontra (by simp)
      · exact dispatch_ne_checksum _ _ _ _ hcontra
  · rw [hexRender_two _ h256]
    rfl
  · intro d hd
    rw [hexRender_two _ h256] at hd
    rcases List.mem_cons.mp hd with rfl | hd2
    · exact hexDigitChar_mem _ (Nat.div_lt_of_lt_mul h256)
    · rcases List.mem_cons.mp hd2 with rfl | hd3
      · exact hexDigitChar_mem _ (Nat.mod_lt _ (by norm_num))
      · simp at hd3
  · intro hck i c hgt hlt hstar hne
    have hp2 : cleanChars (payload.set i c) := by
      intro d hd
      rcases List.mem_or_eq_of_mem_set hd with h2 | rfl
      · exact hp d h2
      · exact ⟨hgt, hlt, hstar⟩
    have hclean2 := NMEAparse_clean (payload.set i c) ck strict hp2 hc
    have hxor : xorFold (payload.set i c) =
        xorFold payload ^^^ (payload.get i).toNat ^^^ c.toNat := xorFold_set i.isLt c
    have hnewne : hexRender (xorFold (payload.set i c)) ≠ pyUpper ⟨ck⟩ := by
      intro heq
      rw [← hck] at heq
      have hlt1 : xorFold (payload.set i c) < 256 :=
        lt_trans (xorFold_lt (fun d hd => (hp2 d hd).2.1)) (by norm_num)
      have heq2 := hexRender_inj256 hlt1 h256 heq
      rw [hxor, Nat.xor_assoc] at heq2
      have h0 : (payload.get i).toNat ^^^ c.toNat = 0 := by
        have h3 := congrArg (fun z => xorFold payload ^^^ z) heq2
        simpa [Nat.xor_cancel_left, Nat.xor_self] using h3
      have h4 : (payload.get i).toNat = c.toNat := by
        have := Nat.xor_eq_zero.mp h0
        omega
      exact hne (char_toNat_inj h4.symm)
    rw [hclean2, if_neg hnewne]

theorem C5_witness :
    (NMEAparse ⟨'$' :: "GNRMC,,V,,,,,,,,,,N".toList ++ '*' :: "4d".toList⟩ false ≠
        .error .checksumError ↔
      hexRender (xorFold "GNRMC,,V,,,,,,,,,,N".toList) = pyUpper ⟨"4d".toList⟩) ∧
    (hexRender (xorFold "GNRMC,,V,,,,,,,,,,N".toList)).length = 2 ∧
    (∀ d ∈ (hexRender (xorFold "GNRMC,,V,,,,,,,,,,N".toList)).toList,
      d ∈ "0123456789ABCDEF".toList) ∧
    (hexRender (xorFold "GNRMC,,V,,,,,,,,,,N".toList) = pyUpper ⟨"4d".toList⟩ →
      ∀ i : Fin "GNRMC,,V,,,,,,,,,,N".toList.length, ∀ c : Char,
        32 < c.toNat → c.toNat < 128 → c ≠ '*' → c ≠ "GNRMC,,V,,,,,,,,,,N".toList.get i →
        NMEAparse ⟨'$' :: "GNRMC,,V,,,,,,,,,,N".toList.set i c ++ '*' :: "4d".toList⟩ false =
          .error .checksumError) :=
  C5_theorem "GNRMC,,V,,,,,,,,,,N".toList "4d".toList false (by decide) (by decide)

end Nmea2Gpx
